import Mathlib

/-!
Shallow embedding of the `sportdogfood/webflow-node-proxy` servers.

The repository consists of near-duplicate Express servers:
  * an axios-based variant (src/unnamed/part_000, first document, and the
    three documents of src/unnamed/part_001) with `makeWebflowRequest`,
    per-route validation and error mirroring;
  * a node-fetch forwarding variant (src/unnamed/part_000, second document)
    with `refreshToken`, the `/foxycart/:endpoint*` route and the generic
    `/proxy/*` route;
  * the node-fetch `src/server.js` variant with `POST /webflow`.

JavaScript runtime values are modelled by `JSValue`; request handlers are
modelled as pure functions from the inbound request and an upstream oracle
(the response the remote API would give) to the HTTP response produced and
the list of outbound requests issued.
-/

/-- A JavaScript runtime value, as relevant to these servers: `undefined`,
`null`, booleans, numbers (modelled as integers; the servers only handle
integral numbers), strings, objects (ordered association lists, as JS
object literals are) and arrays. -/
inductive JSValue where
  | undefined : JSValue
  | null : JSValue
  | bool : Bool → JSValue
  | num : Int → JSValue
  | str : String → JSValue
  | obj : List (String × JSValue) → JSValue
  | arr : List JSValue → JSValue
deriving Repr

/-- JavaScript truthiness of a value (`if (v)`): `undefined`, `null`,
`false`, `0` and the empty string are falsy, everything else truthy. -/
def jsTruthy : JSValue → Bool
  | .undefined => false
  | .null => false
  | .bool b => b
  | .num n => n != 0
  | .str s => s != ""
  | .obj _ => true
  | .arr _ => true

/-- JavaScript `typeof v`. Note `typeof null`, objects and arrays are all
`"object"`. -/
def jsTypeof : JSValue → String
  | .undefined => "undefined"
  | .null => "object"
  | .bool _ => "boolean"
  | .num _ => "number"
  | .str _ => "string"
  | .obj _ => "object"
  | .arr _ => "object"

/-- First-match lookup in an ordered association list, `undefined` when the
key is absent (JS property access on an object). -/
def assocGet : List (String × JSValue) → String → JSValue
  | [], _ => .undefined
  | (k, v) :: rest, key => if k = key then v else assocGet rest key

/-- JS property access `v.key`: association-list lookup on objects,
`undefined` on every other value (the throwing cases for `undefined` and
`null` receivers are modelled explicitly at their use sites). -/
def objGet : JSValue → String → JSValue
  | .obj l, key => assocGet l key
  | _, _ => .undefined

/-- The keys of an object value, in property order; `[]` on non-objects. -/
def objKeys : JSValue → List String
  | .obj l => l.map Prod.fst
  | _ => []

/-- The values of an object value, in property order; `[]` on non-objects. -/
def objValues : JSValue → List JSValue
  | .obj l => l.map Prod.snd
  | _ => []

/-- JS property assignment `o[k] = v` on an object literal spread: if the
key (exact, case-sensitive string) is present the value is overwritten in
place, otherwise the entry is appended. -/
def objSet (l : List (String × JSValue)) (k : String) (v : JSValue) : List (String × JSValue) :=
  if (l.map Prod.fst).contains k then
    l.map (fun p => if p.1 = k then (k, v) else p)
  else
    l ++ [(k, v)]

/-- JS indexed access `v[i]` for the array and string cases; `undefined`
otherwise. -/
def arrGet : JSValue → Nat → JSValue
  | .arr l, i => (l.get? i).getD .undefined
  | .str s, i => match s.toList.get? i with
                 | some c => .str (String.mk [c])
                 | none => .undefined
  | _, _ => .undefined

/-- JS `a || b`. -/
def jsOr (a b : JSValue) : JSValue := if jsTruthy a then a else b

/-- JS `s || d` for an optional string (e.g. `req.get('Content-Type') ||
'application/json'`): the default is taken when the string is absent or
empty. -/
def jsOrStr (o : Option String) (d : String) : String :=
  match o with
  | some s => if s = "" then d else s
  | none => d

/-- JS `n || d` for a number that may be `0` (used for
`error.status || 500`). -/
def natOr (n d : Nat) : Nat := if n = 0 then d else n

/-- JS falsiness of a string (`!s` for a string value): only the empty
string is falsy. -/
def jsFalsyStr (s : String) : Bool := s = ""

/-- JS falsiness of an environment variable (`!process.env.X`): absent
(`undefined`) or the empty string. -/
def jsFalsyEnv : Option String → Bool
  | none => true
  | some s => s = ""

/-- Template-literal stringification of an environment variable
(`` `Bearer ${KEY}` ``): an absent variable is the string `"undefined"`. -/
def envTemplate (o : Option String) : String := o.getD "undefined"

/-- Whether a value is `null` or `undefined`. -/
def isNullOrUndefined : JSValue → Bool
  | .undefined => true
  | .null => true
  | _ => false

/-- Whether a value is `undefined`. -/
def isUndefinedVal : JSValue → Bool
  | .undefined => true
  | _ => false

/-- Template-literal stringification of a JS value, as used for
`` `Bearer ${accessToken}` ``: `undefined` prints as `"undefined"`,
objects as `"[object Object]"`, arrays join their elements with `","`
(with `null`/`undefined` elements printing empty, as `Array.prototype.join`
does). -/
def jsTemplate : JSValue → String
  | .undefined => "undefined"
  | .null => "null"
  | .bool true => "true"
  | .bool false => "false"
  | .num n => toString n
  | .str s => s
  | .obj _ => "[object Object]"
  | .arr l => String.intercalate ","
      (l.attach.map fun x =>
        if isNullOrUndefined x.1 then "" else jsTemplate x.1)
termination_by v => sizeOf v
decreasing_by
  simp_wf
  have := List.sizeOf_lt_of_mem x.2
  omega

/-- ASCII upper-casing of a character, as JS `toUpperCase` acts on the
ASCII strings (HTTP method names, header names) these servers apply it
to. Defined structurally so that it evaluates in proofs (the library's
`String.toUpper` is well-founded and does not reduce). -/
def asciiUpperChar (c : Char) : Char :=
  if 97 ≤ c.toNat ∧ c.toNat ≤ 122 then Char.ofNat (c.toNat - 32) else c

/-- ASCII upper-casing of a string (JS `toUpperCase` on ASCII input). -/
def asciiUpper (s : String) : String := String.mk (s.data.map asciiUpperChar)

/-- An outbound HTTP request as assembled by the servers (the axios
`config` object or the `fetch` options). `headers` values are `JSValue`s
so that entries explicitly set to `undefined` (the `/proxy/*` route) can be
represented; `params` is the axios query-parameter object (airtable
helper); `body` is the JSON payload attached (`config.data` for axios,
the `JSON.stringify`-ed value for fetch), `none` when no body is sent. -/
structure OutboundRequest where
  method : String
  url : String
  headers : List (String × JSValue)
  params : Option JSValue := none
  body : Option JSValue := none

/-- The upstream oracle: what the remote API does for an outbound request —
either an HTTP response (any status) with a JSON body, or a transport
failure (network error; axios throws with no `error.response`, fetch
rejects). -/
inductive Upstream where
  | response : Nat → JSValue → Upstream
  | failure : Upstream

/-- Whether a status is 2xx: axios's default `validateStatus` and fetch's
`response.ok` both accept exactly `200 <= status < 300`. -/
def is2xx (s : Nat) : Bool := 200 ≤ s && s < 300

/-- The error object thrown by `makeWebflowRequest` /
`makeAirtableRequest`: `{ status, data }`. -/
structure UpstreamError where
  status : Nat
  data : JSValue

/-- The outcome of an axios call as the helpers translate it: a 2xx
response returns `response.data`; a non-2xx response throws
`{ status: error.response.status, data: error.response.data }`; a
transport failure throws `{ status: 500, data: { message: 'Internal
Server Error' } }`. -/
def axiosOutcome (up : Upstream) : Except UpstreamError JSValue :=
  match up with
  | .response s b => if is2xx s then .ok b else .error ⟨s, b⟩
  | .failure => .error ⟨500, .obj [("message", .str "Internal Server Error")]⟩

/-- The axios `config` object built by `makeWebflowRequest`: fixed headers
with the bearer credential, and `config.data` set only when `data` is
truthy and the uppercased method is not GET or HEAD. -/
def makeWebflowConfig (key : Option String) (method endpoint : String)
    (data : JSValue) : OutboundRequest :=
  { method := method
    url := "https://api.webflow.com" ++ endpoint
    headers := [("accept", .str "application/json"),
                ("authorization", .str ("Bearer " ++ envTemplate key)),
                ("content-type", .str "application/json")]
    body := if jsTruthy data && !(["GET", "HEAD"].contains (asciiUpper method)) then
              some data
            else none }

/-- Function `makeWebflowRequest(method, endpoint, data)` from the axios variants:
the outbound request it issues, and the value returned / error thrown
given the upstream oracle. -/
def makeWebflowRequest (key : Option String) (method endpoint : String)
    (data : JSValue) (up : Upstream) : OutboundRequest × Except UpstreamError JSValue :=
  (makeWebflowConfig key method endpoint data, axiosOutcome up)

/-- The result of running a route handler: the HTTP status and JSON body
sent to the caller (`res.json` without an explicit status is 200), and the
outbound requests issued while handling, in order. -/
structure HandlerResult where
  status : Nat
  body : JSValue
  calls : List OutboundRequest

/-- Route `GET /test_auth` (and the identical `POST /test_auth`) of the axios
variants. -/
def testAuthHandler (key : Option String) (up : Upstream) : HandlerResult :=
  match makeWebflowRequest key "GET" "/v2/token/authorized_by" .undefined up with
  | (call, .ok d) =>
      ⟨200, .obj [("success", .bool true), ("message", .str "Authorization successful!"),
                  ("data", d)], [call]⟩
  | (call, .error e) =>
      ⟨natOr e.status 500,
       .obj [("success", .bool false), ("message", .str "Authorization failed."),
             ("details", e.data)], [call]⟩

/-- Route `GET /webflow/pages/:page_id/meta`. -/
def getPageMetaHandler (key : Option String) (pageId : String) (up : Upstream) : HandlerResult :=
  if jsFalsyStr pageId then
    ⟨400, .obj [("error", .str "page_id is required.")], []⟩
  else
    match makeWebflowRequest key "GET" ("/pages/" ++ pageId) .undefined up with
    | (call, .ok d) => ⟨200, d, [call]⟩
    | (call, .error e) =>
        ⟨natOr e.status 500,
         .obj [("error", .str "Failed to fetch page metadata."), ("details", e.data)], [call]⟩

/-- Route `PUT /webflow/pages/:page_id/meta`: requires a truthy `fieldData` of
`typeof` `"object"` in the request body before forwarding. -/
def updatePageMetaHandler (key : Option String) (pageId : String) (reqBody : JSValue)
    (up : Upstream) : HandlerResult :=
  let fieldData := objGet reqBody "fieldData"
  if jsFalsyStr pageId then
    ⟨400, .obj [("error", .str "page_id is required.")], []⟩
  else if !jsTruthy fieldData || jsTypeof fieldData != "object" then
    ⟨400, .obj [("error", .str "Valid fieldData object is required.")], []⟩
  else
    match makeWebflowRequest key "PUT" ("/pages/" ++ pageId)
        (.obj [("fieldData", fieldData)]) up with
    | (call, .ok d) => ⟨200, d, [call]⟩
    | (call, .error e) =>
        ⟨natOr e.status 500,
         .obj [("error", .str "Failed to update page metadata."), ("details", e.data)], [call]⟩

/-- Route `GET /webflow/pages/:page_id/content`. -/
def getPageContentHandler (key : Option String) (pageId : String) (up : Upstream) : HandlerResult :=
  if jsFalsyStr pageId then
    ⟨400, .obj [("error", .str "page_id is required.")], []⟩
  else
    match makeWebflowRequest key "GET" ("/pages/" ++ pageId ++ "/dom") .undefined up with
    | (call, .ok d) => ⟨200, d, [call]⟩
    | (call, .error e) =>
        ⟨natOr e.status 500,
         .obj [("error", .str "Failed to fetch page content."), ("details", e.data)], [call]⟩

/-- Route `POST /webflow/pages/:page_id/content`: validates `fieldData`, then
forwards `{ body_id, script_id, script_version, fieldData }`. -/
def updatePageContentHandler (key : Option String) (pageId : String) (reqBody : JSValue)
    (up : Upstream) : HandlerResult :=
  let fieldData := objGet reqBody "fieldData"
  if jsFalsyStr pageId then
    ⟨400, .obj [("error", .str "page_id is required.")], []⟩
  else if !jsTruthy fieldData || jsTypeof fieldData != "object" then
    ⟨400, .obj [("error", .str "Valid fieldData object is required.")], []⟩
  else
    match makeWebflowRequest key "POST" ("/pages/" ++ pageId ++ "/dom")
        (.obj [("body_id", objGet reqBody "body_id"),
               ("script_id", objGet reqBody "script_id"),
               ("script_version", objGet reqBody "script_version"),
               ("fieldData", fieldData)]) up with
    | (call, .ok d) => ⟨200, d, [call]⟩
    | (call, .error e) =>
        ⟨natOr e.status 500,
         .obj [("error", .str "Failed to update page content."), ("details", e.data)], [call]⟩

/-- Route `GET /webflow/collections/:collection_id/items/live`. -/
def getLiveItemHandler (key : Option String) (collectionId : String) (up : Upstream) : HandlerResult :=
  if jsFalsyStr collectionId then
    ⟨400, .obj [("error", .str "collection_id is required.")], []⟩
  else
    match makeWebflowRequest key "GET" ("/collections/" ++ collectionId ++ "/items/live") .undefined up with
    | (call, .ok d) => ⟨200, d, [call]⟩
    | (call, .error e) =>
        ⟨natOr e.status 500,
         .obj [("error", .str "Failed to fetch live collection item."), ("details", e.data)], [call]⟩

/-- Route `PATCH /webflow/collections/:collection_id/items/live`. -/
def updateLiveItemHandler (key : Option String) (collectionId : String) (reqBody : JSValue)
    (up : Upstream) : HandlerResult :=
  let fieldData := objGet reqBody "fieldData"
  if jsFalsyStr collectionId then
    ⟨400, .obj [("error", .str "collection_id is required.")], []⟩
  else if !jsTruthy fieldData || jsTypeof fieldData != "object" then
    ⟨400, .obj [("error", .str "Valid fieldData object is required.")], []⟩
  else
    match makeWebflowRequest key "PATCH" ("/collections/" ++ collectionId ++ "/items/live")
        (.obj [("fieldData", fieldData)]) up with
    | (call, .ok d) => ⟨200, d, [call]⟩
    | (call, .error e) =>
        ⟨natOr e.status 500,
         .obj [("error", .str "Failed to update live collection item."), ("details", e.data)], [call]⟩

/-- Route `GET /webflow/pages/:page_id/custom_code`. -/
def getCustomCodeHandler (key : Option String) (pageId : String) (up : Upstream) : HandlerResult :=
  if jsFalsyStr pageId then
    ⟨400, .obj [("error", .str "page_id is required.")], []⟩
  else
    match makeWebflowRequest key "GET" ("/pages/" ++ pageId ++ "/custom_code") .undefined up with
    | (call, .ok d) => ⟨200, d, [call]⟩
    | (call, .error e) =>
        ⟨natOr e.status 500,
         .obj [("error", .str "Failed to fetch custom code for page."), ("details", e.data)], [call]⟩

/-- Route `PUT /webflow/pages/:page_id/custom_code`: requires a truthy
`customCode` of `typeof` `"object"`. -/
def updateCustomCodeHandler (key : Option String) (pageId : String) (reqBody : JSValue)
    (up : Upstream) : HandlerResult :=
  let customCode := objGet reqBody "customCode"
  if jsFalsyStr pageId then
    ⟨400, .obj [("error", .str "page_id is required.")], []⟩
  else if !jsTruthy customCode || jsTypeof customCode != "object" then
    ⟨400, .obj [("error", .str "Valid customCode object is required.")], []⟩
  else
    match makeWebflowRequest key "PUT" ("/pages/" ++ pageId ++ "/custom_code")
        (.obj [("customCode", customCode)]) up with
    | (call, .ok d) => ⟨200, d, [call]⟩
    | (call, .error e) =>
        ⟨natOr e.status 500,
         .obj [("error", .str "Failed to add/update custom code for page."), ("details", e.data)], [call]⟩

/-- The collection id hard-coded by the first and third
`GET /cms/collection/items` variants. -/
def cmsCollectionIdV1 : String := "647ddb9037101ce399b3310c"

/-- The collection id hard-coded by the second `GET /cms/collection/items`
variant. -/
def cmsCollectionIdV2 : String := "64b01211660e83444d2586c1"

/-- The per-item field projection of the first `GET /cms/collection/items`
variant (src/unnamed/part_001, first document): the object literal built
from `item` and `f = item.fieldData`, in source order. -/
def cleanItemV1 (item : JSValue) : JSValue :=
  let f := objGet item "fieldData"
  .obj [("id", objGet item "id"),
        ("name", objGet f "name"),
        ("display", objGet f "display"),
        ("type", objGet f "type"),
        ("company", objGet f "company"),
        ("category", objGet f "category"),
        ("description", objGet f "description"),
        ("keywords", objGet f "keywords"),
        ("link", objGet f "linkto"),
        ("options", objGet f "options"),
        ("opts_ids", objGet f "opts"),
        ("slug", objGet f "slug"),
        ("createdOn", objGet item "createdOn"),
        ("lastUpdated", objGet item "lastUpdated")]

/-- The per-item field projection of the second `GET /cms/collection/items`
variant (src/unnamed/part_001, second document). Note `collectionId` is the
route's hard-coded collection id, not a field of the item. -/
def cleanItemV2 (item : JSValue) : JSValue :=
  let f := objGet item "fieldData"
  .obj [("name", objGet f "name"),
        ("slug", objGet f "slug"),
        ("collectionId", .str cmsCollectionIdV2),
        ("itemId", objGet item "id"),
        ("createdOn", objGet item "createdOn"),
        ("updatedOn", objGet item "lastUpdated"),
        ("publishedOn", objGet item "lastPublished"),
        ("type", objGet f "type"),
        ("display", objGet f "display"),
        ("company", objGet f "company"),
        ("category", objGet f "category"),
        ("options", objGet f "options"),
        ("description", objGet f "description"),
        ("suggest", objGet f "suggest"),
        ("linkto", objGet f "linkto"),
        ("co", objGet f "co"),
        ("expl", objGet f "expl"),
        ("comp", objGet f "comp"),
        ("acct", objGet f "acct")]

/-- The allow-listed output keys of the first projection variant, in source
order. -/
def allowListV1 : List String :=
  ["id", "name", "display", "type", "company", "category", "description",
   "keywords", "link", "options", "opts_ids", "slug", "createdOn", "lastUpdated"]

/-- The allow-listed output keys of the second projection variant, in
source order. -/
def allowListV2 : List String :=
  ["name", "slug", "collectionId", "itemId", "createdOn", "updatedOn",
   "publishedOn", "type", "display", "company", "category", "options",
   "description", "suggest", "linkto", "co", "expl", "comp", "acct"]

/-- Route `GET /cms/collection/items`, first projecting variant: fetches the
fixed collection's items and maps `cleanItemV1` over `response.items`.
When `response.items` is not an array, `response.items.map` throws a
TypeError which the route's `catch` turns into `error.status || 500` = 500
with `details: error.data` = `undefined`. -/
def cmsItemsV1Handler (key : Option String) (up : Upstream) : HandlerResult :=
  match makeWebflowRequest key "GET"
      ("/v2/collections/" ++ cmsCollectionIdV1 ++ "/items") .undefined up with
  | (call, .ok resp) =>
      match objGet resp "items" with
      | .arr items =>
          let cleaned := items.map cleanItemV1
          ⟨200, .obj [("success", .bool true), ("count", .num cleaned.length),
                      ("items", .arr cleaned)], [call]⟩
      | _ =>
          ⟨500, .obj [("success", .bool false),
                      ("message", .str "Failed to fetch CMS items."),
                      ("details", .undefined)], [call]⟩
  | (call, .error e) =>
      ⟨natOr e.status 500,
       .obj [("success", .bool false), ("message", .str "Failed to fetch CMS items."),
             ("details", e.data)], [call]⟩

/-- Route `GET /cms/collection/items`, second projecting variant. -/
def cmsItemsV2Handler (key : Option String) (up : Upstream) : HandlerResult :=
  match makeWebflowRequest key "GET"
      ("/v2/collections/" ++ cmsCollectionIdV2 ++ "/items") .undefined up with
  | (call, .ok resp) =>
      match objGet resp "items" with
      | .arr items =>
          let cleaned := items.map cleanItemV2
          ⟨200, .obj [("success", .bool true), ("count", .num cleaned.length),
                      ("items", .arr cleaned)], [call]⟩
      | _ =>
          ⟨500, .obj [("success", .bool false),
                      ("message", .str "Failed to fetch CMS items."),
                      ("details", .undefined)], [call]⟩
  | (call, .error e) =>
      ⟨natOr e.status 500,
       .obj [("success", .bool false), ("message", .str "Failed to fetch CMS items."),
             ("details", e.data)], [call]⟩

/-- Route `GET /cms/collection/items`, third variant (src/unnamed/part_001, third
document): returns the raw payload with no projection. -/
def cmsItemsV3Handler (key : Option String) (up : Upstream) : HandlerResult :=
  match makeWebflowRequest key "GET"
      ("/v2/collections/" ++ cmsCollectionIdV1 ++ "/items") .undefined up with
  | (call, .ok d) =>
      ⟨200, .obj [("success", .bool true), ("data", d)], [call]⟩
  | (call, .error e) =>
      ⟨natOr e.status 500,
       .obj [("success", .bool false),
             ("message", .str "Failed to fetch collection items."),
             ("details", e.data)], [call]⟩

/-- Function `makeAirtableRequest(method, path, params, data)` of the airtable
variant: like the webflow helper, plus `config.params` when `params` is
truthy. -/
def makeAirtableRequest (atKey : Option String) (baseId : String)
    (method path : String) (params data : JSValue) (up : Upstream) :
    OutboundRequest × Except UpstreamError JSValue :=
  ({ method := method
     url := "https://api.airtable.com/v0/" ++ baseId ++ "/" ++ path
     headers := [("Authorization", .str ("Bearer " ++ envTemplate atKey)),
                 ("Content-Type", .str "application/json")]
     params := if jsTruthy params then some params else none
     body := if jsTruthy data && !(["GET", "HEAD"].contains (asciiUpper method)) then
               some data
             else none },
   axiosOutcome up)

/-- Route `GET /airtable/ping`: fetches one record; the sample is
`data?.records?.[0] || null`. -/
def airtablePingHandler (atKey : Option String) (baseId tableId : String)
    (up : Upstream) : HandlerResult :=
  match makeAirtableRequest atKey baseId "GET" tableId
      (.obj [("pageSize", .num 1)]) .undefined up with
  | (call, .ok d) =>
      let sample := jsOr (arrGet (objGet d "records") 0) .null
      ⟨200, .obj [("success", .bool true), ("message", .str "Airtable OK"),
                  ("sample", sample)], [call]⟩
  | (call, .error e) =>
      ⟨natOr e.status 500,
       .obj [("success", .bool false), ("message", .str "Airtable failed"),
             ("details", e.data)], [call]⟩

/-- The token request issued by `refreshToken()`: a POST to the FoxyCart
token endpoint with the hard-coded client credentials as a
`URLSearchParams` form body (modelled as the object of its parameters). -/
def foxyTokenRequest : OutboundRequest :=
  { method := "POST"
    url := "https://api.foxycart.com/token"
    headers := [("Content-Type", .str "application/x-www-form-urlencoded")]
    body := some (.obj [("grant_type", .str "refresh_token"),
                        ("refresh_token", .str "XbuTTBW9R6sRHWvKvnYYuJkpAIYnLaZeKHsjAL1D"),
                        ("client_id", .str "client_gsIC67wRNWDFk9UPUjNV"),
                        ("client_secret", .str "gsGeQmYYlWgk3GPkBLsbmTpq7GSt4lrwHHNi1IQm")]) }

/-- Result of `refreshToken()` given the token endpoint's response body: it
parses the JSON and returns `tokenData.access_token` with no validation of
any kind (the response status is never checked, and an absent field yields
`undefined`). -/
def refreshToken (tokenBody : JSValue) : JSValue := objGet tokenBody "access_token"

/-- An inbound request to the `/foxycart/:endpoint*` route:
`endpointParam` is `req.params.endpoint`, `params0` is the wildcard
remainder `req.params[0]` (absent when the path has no extra segment),
`contentType` is `req.get('Content-Type')`, `body` the parsed JSON body. -/
structure FoxyReq where
  method : String
  endpointParam : String
  params0 : Option String
  contentType : Option String
  body : JSValue

/-- The forwarded request the `/foxycart/*` handler sends to the cart API,
given the access token `refreshToken` produced: the Authorization header
is the template string built from the token, and the body is
`JSON.stringify(req.body)` only when the method is POST or PUT. -/
def foxyForward (req : FoxyReq) (accessToken : JSValue) : OutboundRequest :=
  { method := req.method
    url := "https://api.foxycart.com/" ++ req.endpointParam ++ req.params0.getD ""
    headers := [("Authorization", .str ("Bearer " ++ jsTemplate accessToken)),
                ("FOXY-API-VERSION", .str "1"),
                ("Content-Type", .str (jsOrStr req.contentType "application/json"))]
    body := if req.method = "POST" ∨ req.method = "PUT" then some req.body else none }

/-- The fixed error body of the `/foxycart/*` route's catch-all. -/
def foxyErrBody : JSValue := .obj [("error", .str "Error fetching data from FoxyCart API")]

/-- Route `ALL /foxycart/:endpoint*`: refreshes the token (unconditionally, with
no cache), forwards, and on a non-ok (non-2xx) cart response or any thrown
error responds 500 with the fixed generic body. `tokenUp` is the token
endpoint's behaviour, `apiUp` the cart API's. -/
def foxycartHandler (req : FoxyReq) (tokenUp apiUp : Upstream) : HandlerResult :=
  match tokenUp with
  | .failure => ⟨500, foxyErrBody, [foxyTokenRequest]⟩
  | .response _ tokenBody =>
      let fwd := foxyForward req (refreshToken tokenBody)
      match apiUp with
      | .failure => ⟨500, foxyErrBody, [foxyTokenRequest, fwd]⟩
      | .response s b =>
          if is2xx s then ⟨200, b, [foxyTokenRequest, fwd]⟩
          else ⟨500, foxyErrBody, [foxyTokenRequest, fwd]⟩

/-- An inbound request to the generic `/proxy/*` route: `params0` is the
full destination URL taken from the path, `headers` the inbound headers as
Express presents them (header names lowercased by Node), `body` the parsed
JSON body. -/
structure ProxyReq where
  method : String
  params0 : String
  headers : List (String × JSValue)
  body : JSValue

/-- The forwarded request the `/proxy/*` handler sends: the options object
spreads `req.headers` and then sets the exact-case keys `'Host'` and
`'Origin'` to `undefined`; the body is `JSON.stringify(req.body)` only
when the method is POST or PUT. -/
def proxyForward (req : ProxyReq) : OutboundRequest :=
  { method := req.method
    url := req.params0
    headers := objSet (objSet req.headers "Host" .undefined) "Origin" .undefined
    body := if req.method = "POST" ∨ req.method = "PUT" then some req.body else none }

/-- The fixed error body of the `/proxy/*` route's catch-all. -/
def proxyErrBody : JSValue := .obj [("error", .str "Error fetching data from external API")]

/-- Route `ALL /proxy/*`: forwards to the URL in the path; on a non-ok upstream
response or any thrown error responds 500 with the fixed generic body. -/
def proxyHandler (req : ProxyReq) (apiUp : Upstream) : HandlerResult :=
  let fwd := proxyForward req
  match apiUp with
  | .failure => ⟨500, proxyErrBody, [fwd]⟩
  | .response s b =>
      if is2xx s then ⟨200, b, [fwd]⟩
      else ⟨500, proxyErrBody, [fwd]⟩

/-- The outcome of the node-fetch `POST /webflow` handler of src/server.js:
either a response was sent, or an exception escaped the handler unhandled
(no response, no 400, nothing caught by the handler's own `catch`). -/
inductive PostOutcome where
  | responded : Nat → JSValue → PostOutcome
  | threw : PostOutcome

/-- The result of the `POST /webflow` handler: its outcome and the
outbound requests it issued. -/
structure PostResult where
  outcome : PostOutcome
  calls : List OutboundRequest

/-- Route `POST /webflow` of src/server.js: destructures `fieldData` from the
body and dereferences `fieldData.name` while building the payload — both
outside the `try` block, so a missing (`undefined`) or `null` `fieldData`
throws a TypeError before any validation, response or outbound call. The
fetch and the ok-check live inside the `try`: a non-ok upstream response is
mirrored with `details`, a transport failure becomes a generic 500. -/
def webflowPostHandler (key : Option String) (reqBody : JSValue) (up : Upstream) : PostResult :=
  let fieldData := objGet reqBody "fieldData"
  if isNullOrUndefined fieldData then
    ⟨.threw, []⟩
  else
    let call : OutboundRequest :=
      { method := "POST"
        url := "https://api.webflow.com/v2/collections/6494e10f7a143f705f4db1d2/items"
        headers := [("accept", .str "application/json"),
                    ("authorization", .str ("Bearer " ++ envTemplate key)),
                    ("content-type", .str "application/json")]
        body := some (.obj [("isArchived", .bool false),
                            ("isDraft", .bool false),
                            ("fieldData", .obj [("name", objGet fieldData "name")])]) }
    match up with
    | .failure =>
        ⟨.responded 500 (.obj [("error", .str "Error sending data to Webflow API")]), [call]⟩
    | .response s b =>
        if is2xx s then ⟨.responded 200 b, [call]⟩
        else
          ⟨.responded s (.obj [("error", .str "Error sending data to Webflow API"),
                               ("details", b)]), [call]⟩

/-- Whether a process starts listening or exits during startup. -/
inductive StartupResult where
  | exited : Nat → StartupResult
  | listening : StartupResult
deriving Repr, DecidableEq

/-- Startup of the axios variants (src/unnamed/part_000 first document and
src/unnamed/part_001 first and third documents): `process.exit(1)` when
`WEBFLOW_API_KEY` or `SITE_ID` is falsy, before `app.listen`. -/
def axiosVariantStartup (key siteId : Option String) : StartupResult :=
  if jsFalsyEnv key || jsFalsyEnv siteId then .exited 1 else .listening

/-- Startup of the airtable variant (src/unnamed/part_001, second
document): additionally exits when `AIRTABLE_API_KEY` or
`AIRTABLE_BASE_ID` is falsy. -/
def airtableVariantStartup (key siteId atKey atBase : Option String) : StartupResult :=
  if jsFalsyEnv key || jsFalsyEnv siteId then .exited 1
  else if jsFalsyEnv atKey || jsFalsyEnv atBase then .exited 1
  else .listening

/-- Startup of the node-fetch variant src/server.js: it reads
`WEBFLOW_API_KEY` but performs no validation whatsoever, so it always
reaches `app.listen`. -/
def nodeFetchVariantStartup (_key : Option String) : StartupResult := .listening

/-- Startup of the foxycart/proxy variant (src/unnamed/part_000, second
document): it reads no required environment variable at all (credentials
are hard-coded) and always listens. -/
def foxyVariantStartup : StartupResult := .listening

/-- A truthy value is neither `null` nor `undefined`. -/
theorem jsTruthy_not_nullOrUndef {v : JSValue} (h : jsTruthy v = true) :
    isNullOrUndefined v = false := by
  cases v <;> simp_all [jsTruthy, isNullOrUndefined]

/-- Lookup after an in-place overwrite of key `k` finds the new value. -/
theorem assocGet_setInPlace (l : List (String × JSValue)) (k : String) (v : JSValue)
    (h : (l.map Prod.fst).contains k = true) :
    assocGet (l.map fun p => if p.1 = k then (k, v) else p) k = v := by
  induction l with
  | nil => simp at h
  | cons p rest ih =>
      obtain ⟨k0, v0⟩ := p
      simp only [List.map_cons]
      by_cases hk : k0 = k
      · subst hk
        rw [if_pos rfl]
        simp [assocGet]
      · have h' : (rest.map Prod.fst).contains k = true := by
          simp only [List.map_cons, List.contains_cons, Bool.or_eq_true] at h
          rcases h with h1 | h1
          · exact absurd (beq_iff_eq.mp h1).symm hk
          · exact h1
        rw [if_neg hk]
        simp only [assocGet]
        rw [if_neg hk]
        exact ih h'

/-- Lookup of `k` in `l ++ [(k, v)]` finds `v` when `l` has no `k` entry. -/
theorem assocGet_appendSingle (l : List (String × JSValue)) (k : String) (v : JSValue)
    (h : (l.map Prod.fst).contains k = false) :
    assocGet (l ++ [(k, v)]) k = v := by
  induction l with
  | nil => simp [assocGet]
  | cons p rest ih =>
      obtain ⟨k0, v0⟩ := p
      simp only [List.map_cons, List.contains_cons, Bool.or_eq_false_iff] at h
      have hk : ¬ (k0 = k) := fun hh => by simp [hh] at h
      simp [assocGet, hk, ih h.2]

/-- An in-place overwrite of key `k` does not change the lookup of a
different key. -/
theorem assocGet_mapSet_ne (l : List (String × JSValue)) {k k' : String} (v : JSValue)
    (h : k' ≠ k) :
    assocGet (l.map fun p => if p.1 = k then (k, v) else p) k' = assocGet l k' := by
  induction l with
  | nil => rfl
  | cons p rest ih =>
      obtain ⟨k0, v0⟩ := p
      simp only [List.map_cons]
      by_cases hk : k0 = k
      · subst hk
        rw [if_pos rfl]
        simp only [assocGet]
        rw [if_neg (Ne.symm h), if_neg (Ne.symm h)]
        exact ih
      · rw [if_neg hk]
        simp only [assocGet]
        by_cases hk' : k0 = k'
        · rw [if_pos hk', if_pos hk']
        · rw [if_neg hk', if_neg hk']
          exact ih

/-- Appending an entry with key `k` does not change the lookup of a
different key. -/
theorem assocGet_append_ne (l : List (String × JSValue)) {k k' : String} (v : JSValue)
    (h : k' ≠ k) : assocGet (l ++ [(k, v)]) k' = assocGet l k' := by
  induction l with
  | nil => simp [assocGet, Ne.symm h]
  | cons p rest ih =>
      obtain ⟨k0, v0⟩ := p
      by_cases hk' : k0 = k'
      · simp [assocGet, hk']
      · simp [assocGet, hk', ih]

/-- Setting key `k` makes a lookup of `k` find the new value. -/
theorem assocGet_objSet_same (l : List (String × JSValue)) (k : String) (v : JSValue) :
    assocGet (objSet l k v) k = v := by
  unfold objSet
  split
  · exact assocGet_setInPlace l k v (by assumption)
  · rename_i hc
    simp only [Bool.not_eq_true] at hc
    exact assocGet_appendSingle l k v hc

/-- Setting key `k` does not change the lookup of a different key. -/
theorem assocGet_objSet_ne (l : List (String × JSValue)) {k k' : String} (v : JSValue)
    (h : k' ≠ k) : assocGet (objSet l k v) k' = assocGet l k' := by
  unfold objSet
  split
  · exact assocGet_mapSet_ne l v h
  · exact assocGet_append_ne l v h

/-- An entry with a key different from the one being set survives `objSet`. -/
theorem mem_objSet_of_ne {l : List (String × JSValue)} {k : String} {v : JSValue}
    {k' : String} {v' : JSValue} (hm : (k, v) ∈ l) (h : k ≠ k') :
    (k, v) ∈ objSet l k' v' := by
  unfold objSet
  split
  · refine List.mem_map.mpr ⟨(k, v), hm, ?_⟩
    simp [h]
  · exact List.mem_append_left _ hm

/-- Formalization of the provenance conjunct of the original C4 claim at a
fixed input item: an output value was "copied without modification from
the corresponding source field of the input item" only if it is
`undefined` (absent source field) or occurs among the item's top-level
field values or its `fieldData` field values. -/
def valueCopiedFromItem (item v : JSValue) : Prop :=
  v = .undefined ∨ v ∈ objValues item ∨ v ∈ objValues (objGet item "fieldData")

/-- A concrete upstream collection item in which no field value equals the
hard-coded collection id of the second projection variant. -/
def c4Item : JSValue :=
  .obj [("id", .str "itm1"),
        ("createdOn", .str "2024-01-01"),
        ("lastUpdated", .str "2024-01-02"),
        ("lastPublished", .str "2024-01-03"),
        ("fieldData", .obj [("name", .str "Widget")])]

/-- C4 counterexample: in the second `GET /cms/collection/items` variant
the output key `collectionId` carries the route's hard-coded collection id
`64b01211660e83444d2586c1`, which is not copied from any field of the
input item — refuting, at the concrete item `c4Item`, the claim that each
output value equals the corresponding source field of the input item. -/
theorem C4_counterexample :
    ¬ (∀ k ∈ objKeys (cleanItemV2 c4Item),
         valueCopiedFromItem c4Item (objGet (cleanItemV2 c4Item) k)) := by
  intro hall
  have hc := hall "collectionId" (by simp [cleanItemV2, objKeys, c4Item])
  rw [show objGet (cleanItemV2 c4Item) "collectionId" = .str cmsCollectionIdV2 from rfl] at hc
  rcases hc with h1 | h1 | h1
  · exact absurd h1 (by simp [cmsCollectionIdV2])
  · rw [show objValues c4Item =
        [.str "itm1", .str "2024-01-01", .str "2024-01-02", .str "2024-01-03",
         .obj [("name", .str "Widget")]] from rfl] at h1
    simp [cmsCollectionIdV2] at h1
  · rw [show objValues (objGet c4Item "fieldData") = [.str "Widget"] from rfl] at h1
    simp [cmsCollectionIdV2] at h1

/-- C4 (amended): the field projection of `GET /cms/collection/items` is a
pure function on the upstream item list: for every input list the output
has the same length; every output element carries exactly the variant's
allow-listed keys, in source order; and every output value is the
corresponding source field of the input item (read from the item or its
`fieldData`, `undefined` when absent), except the second variant's
`collectionId` key, whose value is the route's hard-coded collection id
rather than a field of the item. -/
theorem C4_projection_pure (items : List JSValue) (item : JSValue) :
    (items.map cleanItemV1).length = items.length
    ∧ (items.map cleanItemV2).length = items.length
    ∧ objKeys (cleanItemV1 item) = allowListV1
    ∧ objKeys (cleanItemV2 item) = allowListV2
    ∧ objGet (cleanItemV1 item) "id" = objGet item "id"
    ∧ objGet (cleanItemV1 item) "name" = objGet (objGet item "fieldData") "name"
    ∧ objGet (cleanItemV1 item) "display" = objGet (objGet item "fieldData") "display"
    ∧ objGet (cleanItemV1 item) "type" = objGet (objGet item "fieldData") "type"
    ∧ objGet (cleanItemV1 item) "company" = objGet (objGet item "fieldData") "company"
    ∧ objGet (cleanItemV1 item) "category" = objGet (objGet item "fieldData") "category"
    ∧ objGet (cleanItemV1 item) "description" = objGet (objGet item "fieldData") "description"
    ∧ objGet (cleanItemV1 item) "keywords" = objGet (objGet item "fieldData") "keywords"
    ∧ objGet (cleanItemV1 item) "link" = objGet (objGet item "fieldData") "linkto"
    ∧ objGet (cleanItemV1 item) "options" = objGet (objGet item "fieldData") "options"
    ∧ objGet (cleanItemV1 item) "opts_ids" = objGet (objGet item "fieldData") "opts"
    ∧ objGet (cleanItemV1 item) "slug" = objGet (objGet item "fieldData") "slug"
    ∧ objGet (cleanItemV1 item) "createdOn" = objGet item "createdOn"
    ∧ objGet (cleanItemV1 item) "lastUpdated" = objGet item "lastUpdated"
    ∧ objGet (cleanItemV2 item) "name" = objGet (objGet item "fieldData") "name"
    ∧ objGet (cleanItemV2 item) "slug" = objGet (objGet item "fieldData") "slug"
    ∧ objGet (cleanItemV2 item) "collectionId" = .str cmsCollectionIdV2
    ∧ objGet (cleanItemV2 item) "itemId" = objGet item "id"
    ∧ objGet (cleanItemV2 item) "createdOn" = objGet item "createdOn"
    ∧ objGet (cleanItemV2 item) "updatedOn" = objGet item "lastUpdated"
    ∧ objGet (cleanItemV2 item) "publishedOn" = objGet item "lastPublished"
    ∧ objGet (cleanItemV2 item) "type" = objGet (objGet item "fieldData") "type"
    ∧ objGet (cleanItemV2 item) "display" = objGet (objGet item "fieldData") "display"
    ∧ objGet (cleanItemV2 item) "company" = objGet (objGet item "fieldData") "company"
    ∧ objGet (cleanItemV2 item) "category" = objGet (objGet item "fieldData") "category"
    ∧ objGet (cleanItemV2 item) "options" = objGet (objGet item "fieldData") "options"
    ∧ objGet (cleanItemV2 item) "description" = objGet (objGet item "fieldData") "description"
    ∧ objGet (cleanItemV2 item) "suggest" = objGet (objGet item "fieldData") "suggest"
    ∧ objGet (cleanItemV2 item) "linkto" = objGet (objGet item "fieldData") "linkto"
    ∧ objGet (cleanItemV2 item) "co" = objGet (objGet item "fieldData") "co"
    ∧ objGet (cleanItemV2 item) "expl" = objGet (objGet item "fieldData") "expl"
    ∧ objGet (cleanItemV2 item) "comp" = objGet (objGet item "fieldData") "comp"
    ∧ objGet (cleanItemV2 item) "acct" = objGet (objGet item "fieldData") "acct" := by
  repeat' apply And.intro
  all_goals first | simp | rfl

/-- C6: every invocation of the `/foxycart/*` handler issues the token
request as its first outbound call, and the forward to the cart API, when
issued at all, is built from the access token extracted from this very
invocation's token response — the token is requested fresh each call,
never cached or reused. -/
theorem C6_fresh_token_each_call (req : FoxyReq) (tokenUp apiUp : Upstream) :
    (foxycartHandler req tokenUp apiUp).calls =
      match tokenUp with
      | .failure => [foxyTokenRequest]
      | .response _ tokenBody =>
          [foxyTokenRequest, foxyForward req (refreshToken tokenBody)] := by
  cases tokenUp with
  | failure => rfl
  | response s b =>
      cases apiUp with
      | failure => rfl
      | response s' b' =>
          simp only [foxycartHandler]
          split <;> rfl

/-- Express route matching for a path pattern containing a single
`:param`: the literal segments before and after the parameter must match
exactly, and `:param` compiles to the regex piece ([^\x2f]+?), which
matches only a non-empty slash-free segment. `segments` are the decoded
path segments of the request URL; the result is the captured parameter,
or `none` when the route does not match. -/
def matchSingleParam (pre post segments : List String) : Option String :=
  if segments.take pre.length = pre then
    match segments.drop pre.length with
    | [] => none
    | p :: rest => if p = "" then none else if rest = post then some p else none
  else none

/-- The outcome of Express dispatch for one route: either the route
matched and its handler ran, or no route matched and Express answered its
default 404 without running any handler (and without any outbound call). -/
inductive Dispatch where
  | handled : HandlerResult → Dispatch
  | notFound : Dispatch

/-- Dispatch for `GET /webflow/pages/:page_id/meta`. -/
def dispatchGetPageMeta (key : Option String) (segments : List String)
    (up : Upstream) : Dispatch :=
  match matchSingleParam ["webflow", "pages"] ["meta"] segments with
  | some pid => .handled (getPageMetaHandler key pid up)
  | none => .notFound

/-- Dispatch for `PUT /webflow/pages/:page_id/meta`. -/
def dispatchUpdatePageMeta (key : Option String) (segments : List String)
    (reqBody : JSValue) (up : Upstream) : Dispatch :=
  match matchSingleParam ["webflow", "pages"] ["meta"] segments with
  | some pid => .handled (updatePageMetaHandler key pid reqBody up)
  | none => .notFound

/-- Dispatch for `GET /webflow/pages/:page_id/content`. -/
def dispatchGetPageContent (key : Option String) (segments : List String)
    (up : Upstream) : Dispatch :=
  match matchSingleParam ["webflow", "pages"] ["content"] segments with
  | some pid => .handled (getPageContentHandler key pid up)
  | none => .notFound

/-- Dispatch for `POST /webflow/pages/:page_id/content`. -/
def dispatchUpdatePageContent (key : Option String) (segments : List String)
    (reqBody : JSValue) (up : Upstream) : Dispatch :=
  match matchSingleParam ["webflow", "pages"] ["content"] segments with
  | some pid => .handled (updatePageContentHandler key pid reqBody up)
  | none => .notFound

/-- Dispatch for `GET /webflow/collections/:collection_id/items/live`. -/
def dispatchGetLiveItem (key : Option String) (segments : List String)
    (up : Upstream) : Dispatch :=
  match matchSingleParam ["webflow", "collections"] ["items", "live"] segments with
  | some cid => .handled (getLiveItemHandler key cid up)
  | none => .notFound

/-- Dispatch for `PATCH /webflow/collections/:collection_id/items/live`. -/
def dispatchUpdateLiveItem (key : Option String) (segments : List String)
    (reqBody : JSValue) (up : Upstream) : Dispatch :=
  match matchSingleParam ["webflow", "collections"] ["items", "live"] segments with
  | some cid => .handled (updateLiveItemHandler key cid reqBody up)
  | none => .notFound

/-- Dispatch for `GET /webflow/pages/:page_id/custom_code`. -/
def dispatchGetCustomCode (key : Option String) (segments : List String)
    (up : Upstream) : Dispatch :=
  match matchSingleParam ["webflow", "pages"] ["custom_code"] segments with
  | some pid => .handled (getCustomCodeHandler key pid up)
  | none => .notFound

/-- Dispatch for `PUT /webflow/pages/:page_id/custom_code`. -/
def dispatchUpdateCustomCode (key : Option String) (segments : List String)
    (reqBody : JSValue) (up : Upstream) : Dispatch :=
  match matchSingleParam ["webflow", "pages"] ["custom_code"] segments with
  | some pid => .handled (updateCustomCodeHandler key pid reqBody up)
  | none => .notFound

/-- C7 counterexample: a request with an empty parameter segment
(`/webflow/pages//meta`) or a missing one (`/webflow/pages/meta`) does not
match the route — Express answers its default 404 and no handler runs —
so no such request ever receives the claimed 400 response: the in-handler
`if (!page_id)` guard is unreachable. -/
theorem C7_counterexample :
    dispatchGetPageMeta (some "k") ["webflow", "pages", "", "meta"]
      (.response 200 .null) = .notFound
    ∧ dispatchGetPageMeta (some "k") ["webflow", "pages", "meta"]
      (.response 200 .null) = .notFound
    ∧ ¬ (∃ r, dispatchGetPageMeta (some "k") ["webflow", "pages", "", "meta"]
          (.response 200 .null) = .handled r ∧ r.status = 400) := by
  refine ⟨rfl, rfl, ?_⟩
  rintro ⟨r, hr, -⟩
  rw [show dispatchGetPageMeta (some "k") ["webflow", "pages", "", "meta"]
        (.response 200 .null) = .notFound from rfl] at hr
  exact Dispatch.noConfusion hr

/-- C7 (amended): for every route requiring a path parameter, a request
whose parameter segment is empty or missing never reaches the handler —
the `:param` pattern requires a non-empty segment, so Express answers its
default 404 with no outbound call; a non-empty segment dispatches to the
handler with that parameter; and the in-handler falsy-parameter guards
(dead code under this routing) would answer exactly 400 with an
explanatory message and no outbound call if they were ever reached. -/
theorem C7_param_routing_amended (key : Option String) (pid : String)
    (reqBody : JSValue) (up : Upstream) (hne : pid ≠ "") :
    dispatchGetPageMeta key ["webflow", "pages", "", "meta"] up = .notFound
    ∧ dispatchUpdatePageMeta key ["webflow", "pages", "", "meta"] reqBody up = .notFound
    ∧ dispatchGetPageContent key ["webflow", "pages", "", "content"] up = .notFound
    ∧ dispatchUpdatePageContent key ["webflow", "pages", "", "content"] reqBody up = .notFound
    ∧ dispatchGetLiveItem key ["webflow", "collections", "", "items", "live"] up = .notFound
    ∧ dispatchUpdateLiveItem key ["webflow", "collections", "", "items", "live"] reqBody up = .notFound
    ∧ dispatchGetCustomCode key ["webflow", "pages", "", "custom_code"] up = .notFound
    ∧ dispatchUpdateCustomCode key ["webflow", "pages", "", "custom_code"] reqBody up = .notFound
    ∧ dispatchGetPageMeta key ["webflow", "pages", "meta"] up = .notFound
    ∧ dispatchGetLiveItem key ["webflow", "collections", "items", "live"] up = .notFound
    ∧ dispatchGetPageMeta key ["webflow", "pages", pid, "meta"] up =
        .handled (getPageMetaHandler key pid up)
    ∧ dispatchUpdatePageMeta key ["webflow", "pages", pid, "meta"] reqBody up =
        .handled (updatePageMetaHandler key pid reqBody up)
    ∧ dispatchGetPageContent key ["webflow", "pages", pid, "content"] up =
        .handled (getPageContentHandler key pid up)
    ∧ dispatchUpdatePageContent key ["webflow", "pages", pid, "content"] reqBody up =
        .handled (updatePageContentHandler key pid reqBody up)
    ∧ dispatchGetLiveItem key ["webflow", "collections", pid, "items", "live"] up =
        .handled (getLiveItemHandler key pid up)
    ∧ dispatchUpdateLiveItem key ["webflow", "collections", pid, "items", "live"] reqBody up =
        .handled (updateLiveItemHandler key pid reqBody up)
    ∧ dispatchGetCustomCode key ["webflow", "pages", pid, "custom_code"] up =
        .handled (getCustomCodeHandler key pid up)
    ∧ dispatchUpdateCustomCode key ["webflow", "pages", pid, "custom_code"] reqBody up =
        .handled (updateCustomCodeHandler key pid reqBody up)
    ∧ (∀ pid0 : String, jsFalsyStr pid0 = true →
        getPageMetaHandler key pid0 up =
          ⟨400, .obj [("error", .str "page_id is required.")], []⟩
        ∧ updatePageMetaHandler key pid0 reqBody up =
          ⟨400, .obj [("error", .str "page_id is required.")], []⟩
        ∧ getPageContentHandler key pid0 up =
          ⟨400, .obj [("error", .str "page_id is required.")], []⟩
        ∧ updatePageContentHandler key pid0 reqBody up =
          ⟨400, .obj [("error", .str "page_id is required.")], []⟩
        ∧ getLiveItemHandler key pid0 up =
          ⟨400, .obj [("error", .str "collection_id is required.")], []⟩
        ∧ updateLiveItemHandler key pid0 reqBody up =
          ⟨400, .obj [("error", .str "collection_id is required.")], []⟩
        ∧ getCustomCodeHandler key pid0 up =
          ⟨400, .obj [("error", .str "page_id is required.")], []⟩
        ∧ updateCustomCodeHandler key pid0 reqBody up =
          ⟨400, .obj [("error", .str "page_id is required.")], []⟩) := by
  refine ⟨rfl, rfl, rfl, rfl, rfl, rfl, rfl, rfl, rfl, rfl,
          ?_, ?_, ?_, ?_, ?_, ?_, ?_, ?_, ?_⟩
  · simp [dispatchGetPageMeta, matchSingleParam, hne]
  · simp [dispatchUpdatePageMeta, matchSingleParam, hne]
  · simp [dispatchGetPageContent, matchSingleParam, hne]
  · simp [dispatchUpdatePageContent, matchSingleParam, hne]
  · simp [dispatchGetLiveItem, matchSingleParam, hne]
  · simp [dispatchUpdateLiveItem, matchSingleParam, hne]
  · simp [dispatchGetCustomCode, matchSingleParam, hne]
  · simp [dispatchUpdateCustomCode, matchSingleParam, hne]
  · intro pid0 h0
    refine ⟨?_, ?_, ?_, ?_, ?_, ?_, ?_, ?_⟩ <;>
      simp [getPageMetaHandler, updatePageMetaHandler, getPageContentHandler,
            updatePageContentHandler, getLiveItemHandler, updateLiveItemHandler,
            getCustomCodeHandler, updateCustomCodeHandler, h0]

/-- C7 witness: a non-empty parameter dispatches to the handler, and the
dead guard would answer 400 on the empty string. -/
theorem C7_param_routing_amended_witness :
    ("p1" : String) ≠ ""
    ∧ dispatchGetPageMeta (some "k") ["webflow", "pages", "p1", "meta"]
        (.response 200 .null) =
        .handled (getPageMetaHandler (some "k") "p1" (.response 200 .null))
    ∧ jsFalsyStr "" = true
    ∧ getPageMetaHandler (some "k") "" (.response 200 .null) =
        ⟨400, .obj [("error", .str "page_id is required.")], []⟩ := by
  have h := C7_param_routing_amended (some "k") "p1" .null (.response 200 .null) (by decide)
  exact ⟨by decide, h.2.2.2.2.2.2.2.2.2.2.1, rfl,
         (h.2.2.2.2.2.2.2.2.2.2.2.2.2.2.2.2.2.2 "" rfl).1⟩

/-- A value that is a non-object (by JS `typeof`) or is `null` fails the
`!x || typeof x !== 'object'` validation used by the body-validating
routes. -/
theorem validation_fails {fd : JSValue} (h : jsTypeof fd ≠ "object" ∨ fd = .null) :
    (!jsTruthy fd || jsTypeof fd != "object") = true := by
  rcases h with h | h
  · simp [h]
  · subst h
    rfl

/-- C8: for every route requiring a structured body field, a request whose
body omits the field or supplies a non-object value (JS `typeof` not
`"object"`, or `null`) receives a 400 response with no outbound call —
for `fieldData` on the PUT-meta, POST-content and PATCH-live routes and
for `customCode` on the PUT-custom-code route. -/
theorem C8_invalid_body_field_400_no_call (key : Option String) (pid : String)
    (b1 b2 : JSValue) (up : Upstream)
    (h1 : jsTypeof (objGet b1 "fieldData") ≠ "object" ∨ objGet b1 "fieldData" = .null)
    (h2 : jsTypeof (objGet b2 "customCode") ≠ "object" ∨ objGet b2 "customCode" = .null) :
    ((updatePageMetaHandler key pid b1 up).status = 400
      ∧ (updatePageMetaHandler key pid b1 up).calls = [])
    ∧ ((updatePageContentHandler key pid b1 up).status = 400
      ∧ (updatePageContentHandler key pid b1 up).calls = [])
    ∧ ((updateLiveItemHandler key pid b1 up).status = 400
      ∧ (updateLiveItemHandler key pid b1 up).calls = [])
    ∧ ((updateCustomCodeHandler key pid b2 up).status = 400
      ∧ (updateCustomCodeHandler key pid b2 up).calls = []) := by
  by_cases hp : jsFalsyStr pid = true <;>
    refine ⟨⟨?_, ?_⟩, ⟨?_, ?_⟩, ⟨?_, ?_⟩, ⟨?_, ?_⟩⟩ <;>
      simp [updatePageMetaHandler, updatePageContentHandler, updateLiveItemHandler,
            updateCustomCodeHandler, hp, validation_fails h1, validation_fails h2]

/-- C8 witness: a body with no `fieldData`/`customCode` key satisfies the
hypotheses (the field is `undefined`, of typeof `"undefined"`), and the
PUT-meta route answers 400 with no outbound call. -/
theorem C8_invalid_body_field_400_no_call_witness :
    (jsTypeof (objGet (JSValue.obj []) "fieldData") ≠ "object"
      ∨ objGet (JSValue.obj []) "fieldData" = .null)
    ∧ (updatePageMetaHandler (some "key") "pg1" (.obj []) (.response 200 .null)).status = 400
    ∧ (updatePageMetaHandler (some "key") "pg1" (.obj []) (.response 200 .null)).calls = [] :=
  ⟨Or.inl (by simp [objGet, assocGet, jsTypeof]),
   (C8_invalid_body_field_400_no_call (some "key") "pg1" (.obj []) (.obj [])
      (.response 200 .null) (Or.inl (by simp [objGet, assocGet, jsTypeof]))
      (Or.inl (by simp [objGet, assocGet, jsTypeof]))).1.1,
   (C8_invalid_body_field_400_no_call (some "key") "pg1" (.obj []) (.obj [])
      (.response 200 .null) (Or.inl (by simp [objGet, assocGet, jsTypeof]))
      (Or.inl (by simp [objGet, assocGet, jsTypeof]))).1.2⟩

/-- C9: in the node-fetch variant's `POST /webflow` handler a request body
whose `fieldData` is absent (`undefined`) makes the handler throw a
TypeError at the `fieldData.name` dereference outside its try block: no
response is produced (in particular no 400), no outbound call is made, and
the handler's own catch never fires. -/
theorem C9_missing_fieldData_throws (key : Option String) (reqBody : JSValue)
    (up : Upstream) (h : objGet reqBody "fieldData" = .undefined) :
    (webflowPostHandler key reqBody up).outcome = .threw
    ∧ (webflowPostHandler key reqBody up).calls = [] := by
  unfold webflowPostHandler
  simp [h, isNullOrUndefined]

/-- C9 witness: a body without a `fieldData` key satisfies the hypothesis
and the handler throws without responding or calling upstream. -/
theorem C9_missing_fieldData_throws_witness :
    objGet (JSValue.obj [("other", .null)]) "fieldData" = .undefined
    ∧ (webflowPostHandler (some "key") (.obj [("other", .null)])
        (.response 200 .null)).outcome = .threw
    ∧ (webflowPostHandler (some "key") (.obj [("other", .null)])
        (.response 200 .null)).calls = [] :=
  ⟨rfl,
   (C9_missing_fieldData_throws (some "key") (.obj [("other", .null)])
      (.response 200 .null) rfl).1,
   (C9_missing_fieldData_throws (some "key") (.obj [("other", .null)])
      (.response 200 .null) rfl).2⟩

/-- C10: `refreshToken` never validates the token response — it returns
whatever `access_token` holds, `undefined` when absent — and in that case
the `/foxycart/*` handler still forwards the request to the cart API, as
its second outbound call, with the literal authorization header
`Bearer undefined` instead of failing at the token-refresh step. -/
theorem C10_bearer_undefined_forward (req : FoxyReq) (s : Nat) (tokenBody : JSValue)
    (apiUp : Upstream) (h : objGet tokenBody "access_token" = .undefined) :
    refreshToken tokenBody = .undefined
    ∧ (foxycartHandler req (.response s tokenBody) apiUp).calls =
        [foxyTokenRequest, foxyForward req .undefined]
    ∧ assocGet (foxyForward req .undefined).headers "Authorization" =
        .str "Bearer undefined" := by
  refine ⟨h, ?_, ?_⟩
  · cases apiUp with
    | failure => simp [foxycartHandler, refreshToken, h]
    | response s' b' =>
        simp only [foxycartHandler, refreshToken, h]
        split <;> rfl
  · show assocGet (foxyForward req .undefined).headers "Authorization" = .str "Bearer undefined"
    simp only [foxyForward, assocGet, if_pos rfl, jsTemplate]
    rw [if_pos trivial]
    rfl

/-- C10 witness: an empty token-endpoint response body satisfies the
hypothesis; the forward happens with authorization `Bearer undefined`. -/
theorem C10_bearer_undefined_forward_witness :
    objGet (JSValue.obj []) "access_token" = .undefined
    ∧ (foxycartHandler ⟨"GET", "stores", none, none, .obj []⟩
        (.response 200 (.obj [])) (.response 200 .null)).calls =
        [foxyTokenRequest, foxyForward ⟨"GET", "stores", none, none, .obj []⟩ .undefined]
    ∧ assocGet (foxyForward ⟨"GET", "stores", none, none, .obj []⟩ .undefined).headers
        "Authorization" = .str "Bearer undefined" :=
  ⟨rfl,
   (C10_bearer_undefined_forward ⟨"GET", "stores", none, none, .obj []⟩ 200 (.obj [])
      (.response 200 .null) rfl).2.1,
   (C10_bearer_undefined_forward ⟨"GET", "stores", none, none, .obj []⟩ 200 (.obj [])
      (.response 200 .null) rfl).2.2⟩

/-- A truthy value of typeof `"object"` passes the
`!x || typeof x !== 'object'` validation. -/
theorem validation_passes {fd : JSValue} (h1 : jsTruthy fd = true)
    (h2 : jsTypeof fd = "object") :
    (!jsTruthy fd || jsTypeof fd != "object") = false := by
  simp [h1, h2]

/-- Concrete inbound request for the C1 counterexample. -/
def c1Req : FoxyReq := ⟨"GET", "stores/123", none, none, .obj []⟩

/-- Concrete token-endpoint behaviour for the C1 counterexample: a normal
token response. -/
def c1TokenUp : Upstream := .response 200 (.obj [("access_token", .str "tok")])

/-- Concrete cart-API behaviour for the C1 counterexample: a 404 with an
error body. -/
def c1ApiUp : Upstream := .response 404 (.obj [("message", .str "Not Found")])

/-- C1 counterexample: the `/foxycart/*` route, given an upstream 404 with
an error body, answers 500 (not 404) with the fixed one-key body
`{ error: ... }` — no `details` key, refuting the claim that the response
status equals the upstream status and carries the upstream error body
under `details`. -/
theorem C1_counterexample :
    (foxycartHandler c1Req c1TokenUp c1ApiUp).status = 500
    ∧ objKeys (foxycartHandler c1Req c1TokenUp c1ApiUp).body = ["error"]
    ∧ ¬ ((foxycartHandler c1Req c1TokenUp c1ApiUp).status = 404
         ∧ objGet (foxycartHandler c1Req c1TokenUp c1ApiUp).body "details" =
             .obj [("message", .str "Not Found")]) :=
  ⟨rfl, rfl, fun hcl => absurd hcl.1 (by decide)⟩

/-- C1 (amended): for the axios-based route handlers (test_auth, the
webflow page/collection/custom-code routes, the cms collection-items
routes, airtable ping) and the node-fetch `POST /webflow` handler, a
non-2xx upstream response is mirrored: the response status equals the
upstream status and the upstream error body is attached under `details`;
but the `/foxycart/*` and `/proxy/*` forwarding routes instead answer a
fixed 500 whose body has only an `error` key — the upstream status and
body are discarded. -/
theorem C1_error_mirroring
    (key atKey : Option String) (pid baseId tableId : String)
    (b1 b2 d : JSValue) (s : Nat)
    (freq : FoxyReq) (tokenUp : Upstream) (preq : ProxyReq)
    (hs2 : is2xx s = false) (hs0 : s ≠ 0)
    (hpid : jsFalsyStr pid = false)
    (hfd1 : jsTruthy (objGet b1 "fieldData") = true)
    (hfd2 : jsTypeof (objGet b1 "fieldData") = "object")
    (hcc1 : jsTruthy (objGet b2 "customCode") = true)
    (hcc2 : jsTypeof (objGet b2 "customCode") = "object") :
    ((testAuthHandler key (.response s d)).status = s
      ∧ objGet (testAuthHandler key (.response s d)).body "details" = d)
    ∧ ((getPageMetaHandler key pid (.response s d)).status = s
      ∧ objGet (getPageMetaHandler key pid (.response s d)).body "details" = d)
    ∧ ((updatePageMetaHandler key pid b1 (.response s d)).status = s
      ∧ objGet (updatePageMetaHandler key pid b1 (.response s d)).body "details" = d)
    ∧ ((getPageContentHandler key pid (.response s d)).status = s
      ∧ objGet (getPageContentHandler key pid (.response s d)).body "details" = d)
    ∧ ((updatePageContentHandler key pid b1 (.response s d)).status = s
      ∧ objGet (updatePageContentHandler key pid b1 (.response s d)).body "details" = d)
    ∧ ((getLiveItemHandler key pid (.response s d)).status = s
      ∧ objGet (getLiveItemHandler key pid (.response s d)).body "details" = d)
    ∧ ((updateLiveItemHandler key pid b1 (.response s d)).status = s
      ∧ objGet (updateLiveItemHandler key pid b1 (.response s d)).body "details" = d)
    ∧ ((getCustomCodeHandler key pid (.response s d)).status = s
      ∧ objGet (getCustomCodeHandler key pid (.response s d)).body "details" = d)
    ∧ ((updateCustomCodeHandler key pid b2 (.response s d)).status = s
      ∧ objGet (updateCustomCodeHandler key pid b2 (.response s d)).body "details" = d)
    ∧ ((cmsItemsV1Handler key (.response s d)).status = s
      ∧ objGet (cmsItemsV1Handler key (.response s d)).body "details" = d)
    ∧ ((cmsItemsV2Handler key (.response s d)).status = s
      ∧ objGet (cmsItemsV2Handler key (.response s d)).body "details" = d)
    ∧ ((cmsItemsV3Handler key (.response s d)).status = s
      ∧ objGet (cmsItemsV3Handler key (.response s d)).body "details" = d)
    ∧ ((airtablePingHandler atKey baseId tableId (.response s d)).status = s
      ∧ objGet (airtablePingHandler atKey baseId tableId (.response s d)).body "details" = d)
    ∧ (webflowPostHandler key b1 (.response s d)).outcome =
        .responded s (.obj [("error", .str "Error sending data to Webflow API"),
                            ("details", d)])
    ∧ ((foxycartHandler freq tokenUp (.response s d)).status = 500
      ∧ objKeys (foxycartHandler freq tokenUp (.response s d)).body = ["error"])
    ∧ ((proxyHandler preq (.response s d)).status = 500
      ∧ objKeys (proxyHandler preq (.response s d)).body = ["error"]) := by
  have hnn := jsTruthy_not_nullOrUndef hfd1
  have hv1 := validation_passes hfd1 hfd2
  have hv2 := validation_passes hcc1 hcc2
  have hfox : (foxycartHandler freq tokenUp (.response s d)).status = 500
      ∧ objKeys (foxycartHandler freq tokenUp (.response s d)).body = ["error"] := by
    cases tokenUp <;> simp [foxycartHandler, hs2, foxyErrBody, objKeys]
  have hprox : (proxyHandler preq (.response s d)).status = 500
      ∧ objKeys (proxyHandler preq (.response s d)).body = ["error"] := by
    simp [proxyHandler, hs2, proxyErrBody, objKeys]
  refine ⟨?_, ?_, ?_, ?_, ?_, ?_, ?_, ?_, ?_, ?_, ?_, ?_, ?_, ?_, hfox, hprox⟩
  all_goals
    simp [testAuthHandler, getPageMetaHandler, updatePageMetaHandler,
          getPageContentHandler, updatePageContentHandler, getLiveItemHandler,
          updateLiveItemHandler, getCustomCodeHandler, updateCustomCodeHandler,
          cmsItemsV1Handler, cmsItemsV2Handler, cmsItemsV3Handler,
          airtablePingHandler, webflowPostHandler,
          makeWebflowRequest, makeAirtableRequest, axiosOutcome,
          hs2, hpid, hfd1, hfd2, hcc1, hcc2, hv1, hv2, hnn]
  all_goals
    simp [natOr, hs0, objGet, assocGet]

/-- C1 witness: status 404 satisfies the hypotheses; the test_auth route
mirrors it while the foxycart route collapses it to 500. -/
theorem C1_error_mirroring_witness :
    is2xx 404 = false ∧ (404 : Nat) ≠ 0
    ∧ (testAuthHandler (some "k")
        (.response 404 (.obj [("msg", .str "nope")]))).status = 404
    ∧ (foxycartHandler ⟨"GET", "stores", none, none, .obj []⟩
        (.response 200 (.obj [])) (.response 404 (.obj [("msg", .str "nope")]))).status = 500 :=
  ⟨rfl, by decide,
   (C1_error_mirroring (some "k") (some "ak") "p1" "base" "tbl"
      (.obj [("fieldData", .obj [("name", .str "x")])])
      (.obj [("customCode", .obj [])])
      (.obj [("msg", .str "nope")]) 404
      ⟨"GET", "stores", none, none, .obj []⟩ (.response 200 (.obj []))
      ⟨"GET", "https://x.example", [], .obj []⟩
      rfl (by decide) rfl rfl rfl rfl rfl).1.1,
   (C1_error_mirroring (some "k") (some "ak") "p1" "base" "tbl"
      (.obj [("fieldData", .obj [("name", .str "x")])])
      (.obj [("customCode", .obj [])])
      (.obj [("msg", .str "nope")]) 404
      ⟨"GET", "stores", none, none, .obj []⟩ (.response 200 (.obj []))
      ⟨"GET", "https://x.example", [], .obj []⟩
      rfl (by decide) rfl rfl rfl rfl rfl).2.2.2.2.2.2.2.2.2.2.2.2.2.2.1.1⟩

/-- Whether an HTTP header is present in an assembled header object, in the
sense relevant to the wire: header names compare case-insensitively, and
entries whose value is `undefined` are treated as absent (the reading most
generous to the code's `'Host': undefined` deletion attempt). -/
def headerPresentCI (hs : List (String × JSValue)) (name : String) : Bool :=
  hs.any fun p => asciiUpper p.1 == asciiUpper name && !(isUndefinedVal p.2)

/-- Concrete inbound request for the C2 counterexample: a PATCH carrying a
JSON body, with the lowercase `host` and `origin` header entries exactly as
Node delivers them to Express. -/
def c2Req : ProxyReq :=
  { method := "PATCH"
    params0 := "https://api.example.com/items/1"
    headers := [("host", .str "proxy-app.herokuapp.com"),
                ("origin", .str "https://www.sportdogfood.com"),
                ("content-type", .str "application/json")]
    body := .obj [("qty", .num 2)] }

/-- C2 counterexample: at the concrete PATCH request `c2Req` the
`/proxy/*` route drops the inbound body entirely (only POST and PUT bodies
are forwarded), and the Host and Origin headers are still present in the
outbound headers — the route only adds capitalised `'Host'`/`'Origin'`
keys set to `undefined`, leaving Node's lowercase `host`/`origin` entries
intact. This refutes both the same-body conjunct and the
headers-absent conjunct of the claim. -/
theorem C2_counterexample :
    (proxyForward c2Req).method = c2Req.method
    ∧ (proxyForward c2Req).body = none
    ∧ headerPresentCI (proxyForward c2Req).headers "Host" = true
    ∧ headerPresentCI (proxyForward c2Req).headers "Origin" = true
    ∧ ¬ ((proxyForward c2Req).body = some c2Req.body) := by
  refine ⟨rfl, rfl, rfl, rfl, fun h => ?_⟩
  rw [show (proxyForward c2Req).body = none from rfl] at h
  exact Option.noConfusion h

/-- C2 (amended): the `/proxy/*` route forwards the inbound method to the
URL taken from the path, forwards the inbound JSON body only when the
method is POST or PUT (other methods' bodies are dropped), builds the
outbound headers by spreading the inbound headers and overwriting only the
exact-case keys `Host` and `Origin` with `undefined` — every other inbound
entry, in particular the lowercase `host` and `origin` entries Node
delivers, survives unchanged — and on a 2xx upstream response returns
exactly the upstream JSON body with status 200. -/
theorem C2_proxy_forwarding_amended (req : ProxyReq) (s : Nat) (b : JSValue)
    (h2xx : is2xx s = true) :
    (proxyForward req).method = req.method
    ∧ (proxyForward req).url = req.params0
    ∧ ((req.method = "POST" ∨ req.method = "PUT") → (proxyForward req).body = some req.body)
    ∧ (¬ (req.method = "POST" ∨ req.method = "PUT") → (proxyForward req).body = none)
    ∧ assocGet (proxyForward req).headers "Host" = .undefined
    ∧ assocGet (proxyForward req).headers "Origin" = .undefined
    ∧ (∀ k v, (k, v) ∈ req.headers → k ≠ "Host" → k ≠ "Origin" →
        (k, v) ∈ (proxyForward req).headers)
    ∧ assocGet (proxyForward req).headers "host" = assocGet req.headers "host"
    ∧ assocGet (proxyForward req).headers "origin" = assocGet req.headers "origin"
    ∧ (proxyHandler req (.response s b)).status = 200
    ∧ (proxyHandler req (.response s b)).body = b := by
  refine ⟨rfl, rfl, ?_, ?_, ?_, ?_, ?_, ?_, ?_, ?_, ?_⟩
  · intro h
    simp [proxyForward, h]
  · intro h
    simp [proxyForward, h]
  · show assocGet (objSet (objSet req.headers "Host" .undefined) "Origin" .undefined) "Host" = .undefined
    rw [assocGet_objSet_ne _ _ (by decide : "Host" ≠ "Origin")]
    exact assocGet_objSet_same _ _ _
  · exact assocGet_objSet_same _ _ _
  · intro k v hm hk ho
    exact mem_objSet_of_ne (mem_objSet_of_ne hm hk) ho
  · show assocGet (objSet (objSet req.headers "Host" .undefined) "Origin" .undefined) "host" = _
    rw [assocGet_objSet_ne _ _ (by decide : "host" ≠ "Origin")]
    exact assocGet_objSet_ne _ _ (by decide : "host" ≠ "Host")
  · show assocGet (objSet (objSet req.headers "Host" .undefined) "Origin" .undefined) "origin" = _
    rw [assocGet_objSet_ne _ _ (by decide : "origin" ≠ "Origin")]
    exact assocGet_objSet_ne _ _ (by decide : "origin" ≠ "Host")
  · simp [proxyHandler, h2xx]
  · simp [proxyHandler, h2xx]

/-- C2 witness: a 2xx status satisfies the hypothesis; the inbound
lowercase `host` entry survives into the outbound headers and the upstream
body is returned verbatim. -/
theorem C2_proxy_forwarding_amended_witness :
    is2xx 200 = true
    ∧ assocGet (proxyForward c2Req).headers "host" = assocGet c2Req.headers "host"
    ∧ (proxyHandler c2Req (.response 200 (.obj [("r", .num 1)]))).body =
        .obj [("r", .num 1)] :=
  ⟨rfl,
   (C2_proxy_forwarding_amended c2Req 200 (.obj [("r", .num 1)]) rfl).2.2.2.2.2.2.2.1,
   (C2_proxy_forwarding_amended c2Req 200 (.obj [("r", .num 1)]) rfl).2.2.2.2.2.2.2.2.2.2⟩

/-- Concrete inbound request for the C3 counterexample: a DELETE carrying
a truthy JSON body. -/
def c3Req : ProxyReq :=
  { method := "DELETE"
    params0 := "https://api.example.com/items/7"
    headers := []
    body := .obj [("force", .bool true)] }

/-- C3 counterexample: a DELETE request with a truthy JSON body — a method
that is neither GET nor HEAD, so the claim says the body is forwarded —
goes through the `/proxy/*` route with no body at all: that route only
forwards bodies for POST and PUT. -/
theorem C3_counterexample :
    jsTruthy c3Req.body = true
    ∧ ¬ (c3Req.method = "GET" ∨ c3Req.method = "HEAD")
    ∧ (proxyForward c3Req).body = none
    ∧ ¬ ((proxyForward c3Req).body = some c3Req.body) := by
  refine ⟨rfl, by decide, rfl, fun h => ?_⟩
  rw [show (proxyForward c3Req).body = none from rfl] at h
  exact Option.noConfusion h

/-- C3 (amended): in the axios helpers (`makeWebflowRequest` and
`makeAirtableRequest`) a truthy
body is included exactly when the uppercased method is not GET and not
HEAD — so PATCH and DELETE bodies are forwarded there; but in the
node-fetch forwarding routes (`/foxycart/*` and `/proxy/*`) the inbound
body is forwarded exactly when the method is POST or PUT, so PATCH and
DELETE bodies are dropped. -/
theorem C3_body_inclusion_amended (key atKey : Option String)
    (m e baseId path : String) (data params tok : JSValue)
    (freq : FoxyReq) (preq : ProxyReq) (up : Upstream)
    (hd : jsTruthy data = true) :
    ((makeWebflowConfig key m e data).body = some data ↔
       ¬ (asciiUpper m = "GET" ∨ asciiUpper m = "HEAD"))
    ∧ ((proxyForward preq).body = some preq.body ↔
       (preq.method = "POST" ∨ preq.method = "PUT"))
    ∧ ((foxyForward freq tok).body = some freq.body ↔
       (freq.method = "POST" ∨ freq.method = "PUT"))
    ∧ ((makeAirtableRequest atKey baseId m path params data up).1.body = some data ↔
       ¬ (asciiUpper m = "GET" ∨ asciiUpper m = "HEAD")) := by
  refine ⟨?_, ?_, ?_, ?_⟩
  · by_cases hm : asciiUpper m = "GET" ∨ asciiUpper m = "HEAD" <;>
      simp [makeWebflowConfig, hd, hm, List.contains]
  · by_cases hm : preq.method = "POST" ∨ preq.method = "PUT" <;>
      simp [proxyForward, hm]
  · by_cases hm : freq.method = "POST" ∨ freq.method = "PUT" <;>
      simp [foxyForward, hm]
  · by_cases hm : asciiUpper m = "GET" ∨ asciiUpper m = "HEAD" <;>
      simp [makeAirtableRequest, hd, hm, List.contains]

/-- C3 witness: a truthy PATCH body is forwarded by both axios helpers but
dropped by the proxy route. -/
theorem C3_body_inclusion_amended_witness :
    jsTruthy (JSValue.obj [("a", .num 1)]) = true
    ∧ (makeWebflowConfig (some "k") "PATCH" "/x" (.obj [("a", .num 1)])).body =
        some (.obj [("a", .num 1)])
    ∧ (makeAirtableRequest (some "ak") "base" "PATCH" "tbl" .null
        (.obj [("a", .num 1)]) (.response 200 .null)).1.body =
        some (.obj [("a", .num 1)])
    ∧ (proxyForward c3Req).body ≠ some c3Req.body :=
  ⟨rfl,
   (C3_body_inclusion_amended (some "k") (some "ak") "PATCH" "/x" "base" "tbl"
      (.obj [("a", .num 1)]) .null .undefined
      ⟨"GET", "s", none, none, .obj []⟩ c3Req (.response 200 .null) rfl).1.mpr (by decide),
   (C3_body_inclusion_amended (some "k") (some "ak") "PATCH" "/x" "base" "tbl"
      (.obj [("a", .num 1)]) .null .undefined
      ⟨"GET", "s", none, none, .obj []⟩ c3Req (.response 200 .null) rfl).2.2.2.mpr (by decide),
   fun h => ((C3_body_inclusion_amended (some "k") (some "ak") "PATCH" "/x" "base" "tbl"
      (.obj [("a", .num 1)]) .null .undefined
      ⟨"GET", "s", none, none, .obj []⟩ c3Req (.response 200 .null) rfl).2.1.mp h).elim
      (fun hc => by simp [c3Req] at hc) (fun hc => by simp [c3Req] at hc)⟩

/-- Request body used in the C5 counterexample: a well-formed `fieldData`
so the `POST /webflow` handler proceeds to its outbound call. -/
def c5Body : JSValue := .obj [("fieldData", .obj [("name", .str "x")])]

/-- C5 counterexample: the node-fetch variant src/server.js performs no
startup validation at all — with `WEBFLOW_API_KEY` absent it still
listens (it does not exit), and its `POST /webflow` handler runs with the
credential unset, issuing exactly one outbound call whose authorization
header is the literal `Bearer undefined`. This refutes the claim that
every server variant exits before accepting connections when the CMS API
key is absent. -/
theorem C5_counterexample :
    nodeFetchVariantStartup none = .listening
    ∧ nodeFetchVariantStartup none ≠ .exited 1
    ∧ ((webflowPostHandler none c5Body (.response 200 .null)).calls.map
        fun c => assocGet c.headers "authorization") = [.str "Bearer undefined"] :=
  ⟨rfl, by decide, rfl⟩

/-- C5 (amended): the axios-based variants exit with code 1 before
listening when `WEBFLOW_API_KEY` or `SITE_ID` is falsy, and the airtable
variant additionally when `AIRTABLE_API_KEY` or `AIRTABLE_BASE_ID` is
falsy; but the node-fetch variants perform no such check: src/server.js
always listens and serves `POST /webflow` with the credential unset,
sending `Bearer undefined` upstream, and the foxycart/proxy variant reads
no required environment variable at all. -/
theorem C5_startup_validation_amended (key siteId atKey atBase k2 s2 : Option String)
    (b : JSValue) (up : Upstream)
    (hks : (jsFalsyEnv key || jsFalsyEnv siteId) = true)
    (hab : (jsFalsyEnv atKey || jsFalsyEnv atBase) = true)
    (hk2 : jsFalsyEnv k2 = false) (hs2 : jsFalsyEnv s2 = false)
    (hfd : jsTruthy (objGet b "fieldData") = true) :
    axiosVariantStartup key siteId = .exited 1
    ∧ airtableVariantStartup key siteId atKey atBase = .exited 1
    ∧ airtableVariantStartup k2 s2 atKey atBase = .exited 1
    ∧ axiosVariantStartup k2 s2 = .listening
    ∧ nodeFetchVariantStartup key = .listening
    ∧ foxyVariantStartup = .listening
    ∧ ((webflowPostHandler none b up).calls.map
        fun c => assocGet c.headers "authorization") = [.str "Bearer undefined"] := by
  have hnn := jsTruthy_not_nullOrUndef hfd
  refine ⟨?_, ?_, ?_, ?_, rfl, rfl, ?_⟩
  · simp [axiosVariantStartup, hks]
  · simp [airtableVariantStartup, hks]
  · simp [airtableVariantStartup, hk2, hs2, hab]
  · simp [axiosVariantStartup, hk2, hs2]
  · cases up with
    | failure => simp [webflowPostHandler, hnn, assocGet, envTemplate]
    | response s' b' =>
        by_cases h2 : is2xx s' = true <;>
          simp [webflowPostHandler, hnn, h2, assocGet, envTemplate]

/-- C5 witness: an empty environment satisfies the falsiness hypotheses;
the axios variant exits while the node-fetch variant listens and sends
`Bearer undefined`. -/
theorem C5_startup_validation_amended_witness :
    (jsFalsyEnv none || jsFalsyEnv none) = true
    ∧ axiosVariantStartup none none = .exited 1
    ∧ nodeFetchVariantStartup none = .listening
    ∧ ((webflowPostHandler none c5Body (.response 201 (.obj []))).calls.map
        fun c => assocGet c.headers "authorization") = [.str "Bearer undefined"] :=
  ⟨rfl,
   (C5_startup_validation_amended none none none none (some "k") (some "s") c5Body
      (.response 201 (.obj [])) rfl rfl rfl rfl rfl).1,
   (C5_startup_validation_amended none none none none (some "k") (some "s") c5Body
      (.response 201 (.obj [])) rfl rfl rfl rfl rfl).2.2.2.2.1,
   (C5_startup_validation_amended none none none none (some "k") (some "s") c5Body
      (.response 201 (.obj [])) rfl rfl rfl rfl rfl).2.2.2.2.2.2⟩
